import Mathlib

/-!
Shallow embedding of the `statemachine` crate (files `src/machine/builder.rs`
and `src/machine/error.rs`).  The crate's `src/machine/mod.rs` (holding
`StateWrapper`, `BasicStateMachine` and its methods) is not present in the
sources; those pieces are modelled from the specification and marked as such.
Rust's `Clone` on caller-defined `State` is modelled as the identity (value
duplication), `RefCell` as plain functional state passing, and
`Result<_, Box<dyn Error>>` as `Except StateMachineError _`.
-/

variable {State Input : Type}

/-- Modelled from the spec: `StateWrapper` (the spec's StateHolder, §4.1) is
defined in `src/machine/mod.rs`, which is absent from the sources; it is a
single mutable cell containing one `State` value. -/
structure StateWrapper (State : Type) where
  state : State
deriving DecidableEq

/-- Modelled from the spec: `new(state)` wraps the given state as the current
value; no failure mode. (`StateWrapper::new` is called by `builder.rs` but
defined in the absent `mod.rs`.) -/
def StateWrapper.new (s : State) : StateWrapper State := ⟨s⟩

/-- Modelled from the spec: `current()` returns a duplicate of the contained
state and does not mutate. -/
def StateWrapper.current (w : StateWrapper State) : State := w.state

/-- Modelled from the spec: `set(state)` replaces the contained value; the
previous value is discarded. -/
def StateWrapper.set (_ : StateWrapper State) (s : State) : StateWrapper State := ⟨s⟩

/-- Modelled from the spec: the `BasicStateMachine` struct (its fields are
visible in `builder.rs`'s `build`): an immutable `initial_state`, a
`StateWrapper` cell for the current state (a `RefCell` in Rust, modelled by
functional update), and the stored transition function. -/
structure BasicStateMachine (State Input : Type) where
  initial_state : State
  current_state : StateWrapper State
  transition : State → Input → State

/-- Modelled from the spec (§4.2): `current_state()` returns a duplicate of the
machine's current state; never fails. -/
def BasicStateMachine.currentState (m : BasicStateMachine State Input) : State :=
  m.current_state.current

/-- Modelled from the spec (§4.2): `initial_state()` returns a duplicate of the
immutable initial state captured at build time; never fails. -/
def BasicStateMachine.initialState (m : BasicStateMachine State Input) : State :=
  m.initial_state

/-- Modelled from the spec (§4.2): `next(input)` computes
`new_state = transition(current_state(), input)`, stores `new_state` into the
holder, and returns the new state.  The mutation is modelled by returning the
updated machine alongside the new state. -/
def BasicStateMachine.next (m : BasicStateMachine State Input) (i : Input) :
    State × BasicStateMachine State Input :=
  let new_state := m.transition m.current_state.current i
  (new_state, { m with current_state := m.current_state.set new_state })

/-- `StateMachineError` from `src/machine/error.rs`: the single variant
`MissingField` carrying the offending field name as a `String`. -/
inductive StateMachineError where
  | MissingField : String → StateMachineError
deriving DecidableEq

/-- The `Display` impl for `StateMachineError` from `src/machine/error.rs`:
`format!("Failed to build the builder because {} field is uninitialized.", field_name)`. -/
def StateMachineError.display : StateMachineError → String
  | .MissingField field_name =>
      "Failed to build the builder because " ++ field_name ++ " field is uninitialized."

/-- `BasicStateMachineBuilder` from `src/machine/builder.rs`: three optional
fields (`PhantomData` carries no data and is dropped). -/
structure BasicStateMachineBuilder (State Input : Type) where
  initial_state : Option State
  current_state : Option State
  transition : Option (State → Input → State)

/-- The `Default` impl from `src/machine/builder.rs`: all fields `None`. -/
def BasicStateMachineBuilder.defaultBuilder : BasicStateMachineBuilder State Input :=
  { initial_state := none, current_state := none, transition := none }

/-- `start()` from the `StateMachineBuilder` impl in `builder.rs`:
`Self::default()`. -/
def StateMachineBuilder.start : BasicStateMachineBuilder State Input :=
  BasicStateMachineBuilder.defaultBuilder

/-- The `initial_state` setter from `builder.rs`: overwrite the field, return
the builder. -/
def StateMachineBuilder.initial_state (b : BasicStateMachineBuilder State Input)
    (state : State) : BasicStateMachineBuilder State Input :=
  { b with initial_state := some state }

/-- The `current_state` setter from `builder.rs`: overwrite the field, return
the builder. -/
def StateMachineBuilder.current_state (b : BasicStateMachineBuilder State Input)
    (state : State) : BasicStateMachineBuilder State Input :=
  { b with current_state := some state }

/-- The `transition` setter from `builder.rs`: overwrite the field, return the
builder. -/
def StateMachineBuilder.transition (b : BasicStateMachineBuilder State Input)
    (next : State → Input → State) : BasicStateMachineBuilder State Input :=
  { b with transition := some next }

/-- `build()` from `builder.rs`: match on `(initial_state, transition)`; on
`(Some, Some)` assemble the machine, seeding the current-state cell from the
explicit `current_state` if present and otherwise from `initial_state`; on
`(None, _)` report the missing `initial_state`; on `(_, None)` report the
missing `transition`. -/
def StateMachineBuilder.build (b : BasicStateMachineBuilder State Input) :
    Except StateMachineError (BasicStateMachine State Input) :=
  match b.initial_state, b.transition with
  | some initial_state, some transition =>
      .ok { initial_state := initial_state
            current_state :=
              match b.current_state with
              | some state => StateWrapper.new state
              | none => StateWrapper.new initial_state
            transition := transition }
  | none, _ => .error (.MissingField "initial_state")
  | _, none => .error (.MissingField "transition")

/-- C1: for every initial state and transition function, if the builder has
`initial_state` and `transition` set and no explicit `current_state`, then
`build()` succeeds and immediately after construction the machine's
`current_state()` equals its `initial_state()`, both being the supplied
initial state. -/
theorem build_no_override_current_eq_initial
    (b : BasicStateMachineBuilder State Input) (s : State)
    (t : State → Input → State)
    (h1 : b.initial_state = some s) (h2 : b.current_state = none)
    (h3 : b.transition = some t) :
    ∃ m, StateMachineBuilder.build b = .ok m ∧
      m.currentState = s ∧ m.initialState = s ∧
      m.currentState = m.initialState := by
  obtain ⟨bi, bc, bt⟩ := b
  dsimp only at h1 h2 h3
  subst h1; subst h2; subst h3
  exact ⟨⟨s, StateWrapper.new s, t⟩, rfl, rfl, rfl, rfl⟩

/-- Witness for C1 at `State = Nat`, `Input = Nat`, initial state 2. -/
theorem build_no_override_current_eq_initial_witness :
    ∃ m, StateMachineBuilder.build
        (⟨some 2, none, some fun s _ => s + 1⟩ : BasicStateMachineBuilder Nat Nat)
        = .ok m ∧
      m.currentState = 2 ∧ m.initialState = 2 ∧
      m.currentState = m.initialState :=
  build_no_override_current_eq_initial _ 2 _ rfl rfl rfl

/-- C2: for every initial state, explicit current-state override and transition
function, if all three are set then `build()` succeeds, `current_state()`
equals the override, and `initial_state()` equals the originally supplied
initial state. -/
theorem build_with_override
    (b : BasicStateMachineBuilder State Input) (s c : State)
    (t : State → Input → State)
    (h1 : b.initial_state = some s) (h2 : b.current_state = some c)
    (h3 : b.transition = some t) :
    ∃ m, StateMachineBuilder.build b = .ok m ∧
      m.currentState = c ∧ m.initialState = s := by
  obtain ⟨bi, bc, bt⟩ := b
  dsimp only at h1 h2 h3
  subst h1; subst h2; subst h3
  exact ⟨⟨s, StateWrapper.new c, t⟩, rfl, rfl, rfl⟩

/-- Witness for C2 at `State = Nat`, `Input = Nat`, initial state 1,
override 5. -/
theorem build_with_override_witness :
    ∃ m, StateMachineBuilder.build
        (⟨some 1, some 5, some fun s _ => s⟩ : BasicStateMachineBuilder Nat Nat)
        = .ok m ∧
      m.currentState = 5 ∧ m.initialState = 1 :=
  build_with_override _ 1 5 _ rfl rfl rfl

/-- C3: for every state `s` and input `i`, if the machine's current state is
`s`, then `next i` computes `transition s i`, stores it so that
`current_state()` afterwards equals exactly `transition s i`, returns that new
state, and leaves `initial_state()` unchanged. -/
theorem next_advances_by_transition
    (m : BasicStateMachine State Input) (s : State) (i : Input)
    (h : m.currentState = s) :
    (m.next i).1 = m.transition s i ∧
      (m.next i).2.currentState = m.transition s i ∧
      (m.next i).2.initialState = m.initialState := by
  subst h
  exact ⟨rfl, rfl, rfl⟩

/-- Witness for C3 on a concrete machine over `Nat` with current state 4 and
input 3. -/
theorem next_advances_by_transition_witness :
    ((⟨0, StateWrapper.new 4, fun s i => s + i⟩ :
        BasicStateMachine Nat Nat).next 3).1 = (4 : Nat) + 3 ∧
      ((⟨0, StateWrapper.new 4, fun s i => s + i⟩ :
        BasicStateMachine Nat Nat).next 3).2.currentState = (4 : Nat) + 3 ∧
      ((⟨0, StateWrapper.new 4, fun s i => s + i⟩ :
        BasicStateMachine Nat Nat).next 3).2.initialState =
        (⟨0, StateWrapper.new 4, fun s i => s + i⟩ :
          BasicStateMachine Nat Nat).initialState :=
  next_advances_by_transition _ 4 3 rfl

/-- C4: for every builder whose `initial_state` was never set, `build()` fails
with `MissingField "initial_state"`, whether or not `transition` was set. -/
theorem build_missing_initial_state
    (b : BasicStateMachineBuilder State Input)
    (h : b.initial_state = none) :
    StateMachineBuilder.build b = .error (.MissingField "initial_state") := by
  obtain ⟨bi, bc, bt⟩ := b
  dsimp only at h
  subst h
  cases bt <;> rfl

/-- Witness for C4: a builder with a transition but no initial state. -/
theorem build_missing_initial_state_witness :
    StateMachineBuilder.build
        (⟨none, none, some fun s _ => s⟩ : BasicStateMachineBuilder Nat Nat)
      = .error (.MissingField "initial_state") :=
  build_missing_initial_state _ rfl

/-- C5: for every builder with `initial_state` set but `transition` never set,
`build()` fails with `MissingField "transition"`. -/
theorem build_missing_transition
    (b : BasicStateMachineBuilder State Input) (s : State)
    (h1 : b.initial_state = some s) (h2 : b.transition = none) :
    StateMachineBuilder.build b = .error (.MissingField "transition") := by
  obtain ⟨bi, bc, bt⟩ := b
  dsimp only at h1 h2
  subst h1; subst h2
  rfl

/-- Witness for C5: a builder with initial state 0 and no transition. -/
theorem build_missing_transition_witness :
    StateMachineBuilder.build
        (⟨some 0, none, none⟩ : BasicStateMachineBuilder Nat Nat)
      = .error (.MissingField "transition") :=
  build_missing_transition _ 0 rfl rfl

/-- C6: for every field name `f`, the diagnostic display of
`MissingField f` contains `f` (the error carries the field name as a string
for display). -/
theorem missing_field_display_contains_name (f : String) :
    ∃ p q, (StateMachineError.MissingField f).display = p ++ f ++ q :=
  ⟨"Failed to build the builder because ", " field is uninitialized.", rfl⟩

/-- C7: each setter is last-write-wins: calling a setter with `v1` and then
`v2` leaves the builder exactly as calling it once with `v2`, so `build()`
yields the same result. -/
theorem setters_last_write_wins
    (b : BasicStateMachineBuilder State Input) (v1 v2 : State)
    (t1 t2 : State → Input → State) :
    StateMachineBuilder.initial_state (StateMachineBuilder.initial_state b v1) v2
        = StateMachineBuilder.initial_state b v2 ∧
      StateMachineBuilder.current_state (StateMachineBuilder.current_state b v1) v2
        = StateMachineBuilder.current_state b v2 ∧
      StateMachineBuilder.transition (StateMachineBuilder.transition b t1) t2
        = StateMachineBuilder.transition b t2 ∧
      StateMachineBuilder.build
          (StateMachineBuilder.initial_state (StateMachineBuilder.initial_state b v1) v2)
        = StateMachineBuilder.build (StateMachineBuilder.initial_state b v2) ∧
      StateMachineBuilder.build
          (StateMachineBuilder.current_state (StateMachineBuilder.current_state b v1) v2)
        = StateMachineBuilder.build (StateMachineBuilder.current_state b v2) ∧
      StateMachineBuilder.build
          (StateMachineBuilder.transition (StateMachineBuilder.transition b t1) t2)
        = StateMachineBuilder.build (StateMachineBuilder.transition b t2) :=
  ⟨rfl, rfl, rfl, rfl, rfl, rfl⟩

/-- C8: any two distinct setters with fixed arguments commute: applying them in
either order produces the same builder, hence the same `build()` outcome. -/
theorem setters_commute
    (b : BasicStateMachineBuilder State Input) (v c : State)
    (t : State → Input → State) :
    StateMachineBuilder.current_state (StateMachineBuilder.initial_state b v) c
        = StateMachineBuilder.initial_state (StateMachineBuilder.current_state b c) v ∧
      StateMachineBuilder.transition (StateMachineBuilder.initial_state b v) t
        = StateMachineBuilder.initial_state (StateMachineBuilder.transition b t) v ∧
      StateMachineBuilder.transition (StateMachineBuilder.current_state b c) t
        = StateMachineBuilder.current_state (StateMachineBuilder.transition b t) c ∧
      StateMachineBuilder.build
          (StateMachineBuilder.current_state (StateMachineBuilder.initial_state b v) c)
        = StateMachineBuilder.build
          (StateMachineBuilder.initial_state (StateMachineBuilder.current_state b c) v) ∧
      StateMachineBuilder.build
          (StateMachineBuilder.transition (StateMachineBuilder.initial_state b v) t)
        = StateMachineBuilder.build
          (StateMachineBuilder.initial_state (StateMachineBuilder.transition b t) v) ∧
      StateMachineBuilder.build
          (StateMachineBuilder.transition (StateMachineBuilder.current_state b c) t)
        = StateMachineBuilder.build
          (StateMachineBuilder.current_state (StateMachineBuilder.transition b t) c) :=
  ⟨rfl, rfl, rfl, rfl, rfl, rfl⟩

/-- C9: `start()` produces a builder with all three fields unset, and `build()`
on such a fresh builder fails with a `MissingField` error (namely
`MissingField "initial_state"`). -/
theorem start_all_unset_build_fails :
    (StateMachineBuilder.start : BasicStateMachineBuilder State Input).initial_state
        = none ∧
      (StateMachineBuilder.start : BasicStateMachineBuilder State Input).current_state
        = none ∧
      (StateMachineBuilder.start : BasicStateMachineBuilder State Input).transition
        = none ∧
      StateMachineBuilder.build
          (StateMachineBuilder.start : BasicStateMachineBuilder State Input)
        = .error (.MissingField "initial_state") :=
  ⟨rfl, rfl, rfl, rfl⟩

/-- C10: each setter modifies only its own field and leaves the other two
fields of the builder unchanged. -/
theorem setters_frame
    (b : BasicStateMachineBuilder State Input) (v : State)
    (t : State → Input → State) :
    (StateMachineBuilder.initial_state b v).current_state = b.current_state ∧
      (StateMachineBuilder.initial_state b v).transition = b.transition ∧
      (StateMachineBuilder.current_state b v).initial_state = b.initial_state ∧
      (StateMachineBuilder.current_state b v).transition = b.transition ∧
      (StateMachineBuilder.transition b t).initial_state = b.initial_state ∧
      (StateMachineBuilder.transition b t).current_state = b.current_state :=
  ⟨rfl, rfl, rfl, rfl, rfl, rfl⟩
